import Mathlib

/-!
Shallow embedding of `vispy/scene/cameras.py` (camera hierarchy: base
`Camera`, `PanZoomCamera`, `PerspectiveCamera`, `TurntableCamera`, and the
`make_camera` factory), together with theorems settling the spec's claims
about it.

Numeric values (pixel positions, rectangle coordinates, angles, fov) are
modelled over `ℚ`; the transform primitives (`STTransform`, `Rect`,
`AffineTransform`, `PerspectiveTransform`), the event machinery and the
`Entity` base class live in modules of the repository that are not part of
the analysed source, so they are modelled from the spec where noted.

The floating-point exponentials `1.03 ** d` (PanZoom zoom response) and
`1.1 ** -d` (Turntable wheel response) are strictly monotone real functions
with no exact rational embedding; the handlers take them as an explicit
function parameter (`pow103`, `pow11`), and every theorem about them holds
for an arbitrary such function.
-/

set_option autoImplicit false

namespace VispyCameras

/-- Modelled from the spec: `Rect` (`vispy/util/geometry.py`, not in the
analysed source): axis-aligned rectangle `(origin : Point2, size : Vector2)`
in scene or pixel coordinates. -/
structure Rect where
  pos : ℚ × ℚ
  size : ℚ × ℚ
  deriving DecidableEq

/-- Modelled from the spec: `Rect.__add__` with a 2-vector
("translation-by-vector as a pure value operation"). -/
def Rect.translateBy (r : Rect) (v : ℚ × ℚ) : Rect :=
  { r with pos := r.pos + v }

/-- Modelled from the spec: `Rect.flipped(y=True, x=False)` — flip the
rectangle on the Y axis (origin moves to the opposite horizontal edge,
Y size negates). -/
def Rect.flippedY (r : Rect) : Rect :=
  { pos := (r.pos.1, r.pos.2 + r.size.2), size := (r.size.1, -r.size.2) }

/-- Modelled from the spec: `STTransform` — the similarity transform of the
transform stack ("uniform-per-axis scale plus translate"), mapping
`p ↦ scale * p + translate` componentwise. -/
structure STT where
  scale : ℚ × ℚ
  translate : ℚ × ℚ
  deriving DecidableEq

namespace STT

/-- `STTransform()` with no arguments: identity (scale 1, translate 0). -/
def default : STT := ⟨(1, 1), (0, 0)⟩

/-- `STTransform(translate=v)`. -/
def translateOnly (v : ℚ × ℚ) : STT := ⟨(1, 1), v⟩

/-- `STTransform(scale=s)`. -/
def scaleOnly (s : ℚ × ℚ) : STT := ⟨s, (0, 0)⟩

/-- Forward map of a point. -/
def map (t : STT) (p : ℚ × ℚ) : ℚ × ℚ :=
  (t.scale.1 * p.1 + t.translate.1, t.scale.2 * p.2 + t.translate.2)

/-- Inverse map of a point (`imap`). The spec's invariant is that the
derived transform is always invertible (non-zero scale); `ℚ` division by
zero yields `0` but is never exercised under that invariant. -/
def imap (t : STT) (p : ℚ × ℚ) : ℚ × ℚ :=
  ((p.1 - t.translate.1) / t.scale.1, (p.2 - t.translate.2) / t.scale.2)

/-- Composition `a * b`: apply `b` first, then `a` (so that
`(a * b).map p = a.map (b.map p)`). -/
def comp (a b : STT) : STT :=
  ⟨(a.scale.1 * b.scale.1, a.scale.2 * b.scale.2), a.map b.translate⟩

instance : Mul STT := ⟨comp⟩

/-- Mapping a `Rect` through an `STTransform`: origin is mapped, size is
scaled (equivalently, the corners are mapped). -/
def mapRect (t : STT) (r : Rect) : Rect :=
  ⟨t.map r.pos, (t.scale.1 * r.size.1, t.scale.2 * r.size.2)⟩

/-- Modelled from the spec: `setMapping(srcRect, dstRect)` "solves a
similarity transform from one rect to another": `src` maps exactly
onto `dst`. -/
def fromRectMapping (src dst : Rect) : STT :=
  let s : ℚ × ℚ := (dst.size.1 / src.size.1, dst.size.2 / src.size.2)
  ⟨s, (dst.pos.1 - s.1 * src.pos.1, dst.pos.2 - s.2 * src.pos.2)⟩

/-- Modelled from the spec: `STTransform.from_mapping` on two point pairs —
the similarity transform sending `p0 ↦ q0` and `p1 ↦ q1` per axis. -/
def fromPointMapping (p0 p1 q0 q1 : ℚ × ℚ) : STT :=
  let s : ℚ × ℚ := ((q1.1 - q0.1) / (p1.1 - p0.1), (q1.2 - q0.2) / (p1.2 - p0.2))
  ⟨s, (q0.1 - s.1 * p0.1, q0.2 - s.2 * p0.2)⟩

end STT

/-- Python exceptions that the camera code can raise. -/
inductive PyError where
  /-- `AttributeError`: access to a missing attribute, carrying its name. -/
  | attributeError (attr : String)
  /-- `ValueError("Unknown projection mode '%s'")`, carrying the mode. -/
  | valueErrorUnknownMode (mode : String)
  deriving DecidableEq

/-- The four pointer event types a camera subscribes to. -/
inductive EvType where
  | press
  | release
  | move
  | wheel
  deriving DecidableEq

/-- Modelled from the spec: the structured pointer event
(`vispy/util/event.py` is not in the analysed source): "current/previous
pointer position (canvas and mapped-to-canvas forms), pressed-button set, a
`handled` flag, and (for wheel) a delta". `event.map_to_canvas` is an
affine viewbox-to-canvas change of coordinates with per-event coefficients
`cScale`/`cOff`. `pressPos` is `event.press_event.pos`, `lastPos` is
`event.last_event.pos`. -/
structure MouseEvent where
  etype : EvType
  pos : ℚ × ℚ
  lastPos : ℚ × ℚ
  pressPos : ℚ × ℚ
  buttons : List Nat
  handled : Bool
  delta : ℚ × ℚ
  cScale : ℚ × ℚ
  cOff : ℚ × ℚ
  deriving DecidableEq

/-- Modelled from the spec: `event.map_to_canvas(p)` — the affine map from
viewbox coordinates to canvas coordinates. -/
def MouseEvent.map_to_canvas (ev : MouseEvent) (p : ℚ × ℚ) : ℚ × ℚ :=
  (ev.cScale.1 * p.1 + ev.cOff.1, ev.cScale.2 * p.2 + ev.cOff.2)

/-- Abstract transform tokens for the base `Camera`, whose own transform is
an opaque `NullTransform` and is only stored and republished, never
computed with. -/
inductive TrTok where
  | nullTransform
  | tok (n : Nat)
  deriving DecidableEq

/-- The viewbox a base `Camera` binds to: one subscription flag per pointer
event emitter (whether this camera's `mouse_event` is connected, modelled
from the spec's event-subscription description), plus the content root's
transform (`viewbox.scene.transform`), `none` until first written. -/
structure BaseViewbox where
  pressSub : Bool
  releaseSub : Bool
  moveSub : Bool
  wheelSub : Bool
  sceneTransform : Option TrTok
  deriving DecidableEq

/-- State of the base `Camera`: `_viewbox` (`none` while unbound) and
`_transform`. -/
structure CameraS where
  viewbox : Option BaseViewbox
  transform : TrTok
  deriving DecidableEq

namespace Camera

/-- `Camera.__init__`: `_viewbox = None`, `_transform = NullTransform()`. -/
def init : CameraS := ⟨none, .nullTransform⟩

/-- `Camera.update` (line 115): if bound, write `self.transform` to
`self.viewbox.scene.transform`; otherwise do nothing. -/
def update (c : CameraS) : CameraS :=
  match c.viewbox with
  | none => c
  | some vb => { c with viewbox := some { vb with sceneTransform := some c.transform } }

/-- `Camera.connect` (line 86): connect `self.mouse_event` to the bound
viewbox's press/release/move/wheel emitters. (Only called with a viewbox
assigned.) -/
def connect (c : CameraS) : CameraS :=
  match c.viewbox with
  | none => c
  | some vb =>
      { c with viewbox := some { vb with
          pressSub := true, releaseSub := true, moveSub := true, wheelSub := true } }

/-- `Camera.disconnect` (line 92): disconnect `self.mouse_event` from the
bound viewbox's four emitters. This is the method the `viewbox` setter
intends to call. -/
def disconnect (c : CameraS) : CameraS :=
  match c.viewbox with
  | none => c
  | some vb =>
      { c with viewbox := some { vb with
          pressSub := false, releaseSub := false, moveSub := false, wheelSub := false } }

/-- `Camera.viewbox` setter (lines 66-72). The source reads

    if self._viewbox is not None:
        self.disconnec()
    self._viewbox = vb
    self.connect()
    self.update()

`disconnec` is not an attribute of the class (the defined method is
`disconnect`), so when the camera is already bound Python raises
`AttributeError` before any state changes; otherwise the new viewbox is
assigned, subscribed to, and the transform is pushed. -/
def setViewbox (c : CameraS) (vb : BaseViewbox) : Except PyError CameraS :=
  if c.viewbox.isSome then
    .error (.attributeError "disconnec")
  else
    .ok (update (connect { c with viewbox := some vb }))

end Camera

/-- The viewbox a `PanZoomCamera` is bound to: its pixel rectangle
(`viewbox.rect`) and the content root's transform
(`viewbox.scene.transform`, written by `update`), `none` until first
written. -/
structure PZViewbox where
  pixelRect : Rect
  sceneTransform : Option STT
  deriving DecidableEq

/-- State of a `PanZoomCamera`: `_rect` (visible range in scene),
`_transform` (an `STTransform`), `_mouse_enabled`, and the bound viewbox
(`none` while unbound). -/
structure PZWorld where
  rect : Rect
  transform : STT
  mouseEnabled : Bool
  viewbox : Option PZViewbox
  deriving DecidableEq

namespace PanZoomCamera

/-- `PanZoomCamera.__init__`: `_rect = Rect((0, 0), (1, 1))`,
`_transform = STTransform()`, `_mouse_enabled = True`, unbound. -/
def init : PZWorld := ⟨⟨(0, 0), (1, 1)⟩, STT.default, true, none⟩

/-- `PanZoomCamera.update` (line 206): if bound, solve `self.transform` to
map `self.rect` onto the viewbox's pixel rect flipped on Y, then (via
`Camera.update`) write it to `viewbox.scene.transform`; no-op when
unbound (both this method's body and the superclass call are guarded by
`viewbox is not None`). -/
def update (w : PZWorld) : PZWorld :=
  match w.viewbox with
  | none => w
  | some vb =>
      let vbr := vb.pixelRect.flippedY
      let tr := STT.fromRectMapping w.rect vbr
      { w with transform := tr, viewbox := some { vb with sceneTransform := some tr } }

/-- `PanZoomCamera.rect` setter (line 192): store the new rect and call
`update`. -/
def setRect (w : PZWorld) (r : Rect) : PZWorld :=
  update { w with rect := r }

/-- `PanZoomCamera.mouse_event` (lines 147-182).

`pow103` stands for the float operation `d ↦ 1.03 ** d`; the source's
`1.03 ** ((p1c - p2c) * np.array([1, -1]))` computes it componentwise on
`(Δx, -Δy)` where `Δ = p1c - p2c`. -/
def mouse_event (pow103 : ℚ → ℚ) (w : PZWorld) (ev : MouseEvent) :
    PZWorld × MouseEvent :=
  if ev.handled ∨ w.mouseEnabled = false then (w, ev)
  else if 1 ∈ ev.buttons then
    let p1 := ev.lastPos
    let p2 := ev.pos
    let p1s := w.transform.imap p1
    let p2s := w.transform.imap p2
    let w' := setRect w (w.rect.translateBy (p1s - p2s))
    let ev' := { ev with handled := true }
    (update w', ev')
  else if 2 ∈ ev.buttons then
    let p1c := ev.map_to_canvas ev.lastPos
    let p2c := ev.map_to_canvas ev.pos
    let s : ℚ × ℚ := (pow103 (p1c.1 - p2c.1), pow103 (-(p1c.2 - p2c.2)))
    let center := w.transform.imap ev.pressPos
    let tr := STT.translateOnly center * STT.scaleOnly s * STT.translateOnly (-center)
    let w' := setRect w (tr.mapRect w.rect)
    let ev' := { ev with handled := true }
    (update w', ev')
  else (w, ev)

end PanZoomCamera

/-- The zoom update exactly as §4.2 of the spec words it: the per-axis
scale factor is `1.03 ^ (Δ · (1, −1))` for the canvas-pixel delta
`Δ = previousCanvas − currentCanvas`; `center` is the scene-space point
under the button-press location (inverse-mapped through the current
transform); the new rect is the old rect mapped through the composite
similarity transform `translate(center) · scale(s) · translate(−center)`. -/
def specZoomRect (pow103 : ℚ → ℚ) (w : PZWorld) (ev : MouseEvent) : Rect :=
  let dlt := ev.map_to_canvas ev.lastPos - ev.map_to_canvas ev.pos
  let s : ℚ × ℚ := (pow103 dlt.1, pow103 (-dlt.2))
  let center := w.transform.imap ev.pressPos
  (STT.translateOnly center * STT.scaleOnly s * STT.translateOnly (-center)).mapRect w.rect

/-- Modelled from the spec: one mutation step of an `AffineTransform`
(`vispy/scene/transforms.py`, not in the analysed source) — the pose
transform is described by the trace of `translate`/`rotate` calls applied
since the last `reset` ("translate(vec), rotate(angleDegrees, axis)"). -/
inductive AffOp where
  | translate3 (v : ℚ × ℚ × ℚ)
  | rotate (angleDegrees : ℚ) (axis : ℚ × ℚ × ℚ)
  deriving DecidableEq

/-- `AffineTransform.reset()`: back to identity — the operation trace is
cleared. -/
def affReset (_ : List AffOp) : List AffOp := []

/-- `AffineTransform.translate(v)`: append a translation to the trace. -/
def affTranslate (t : List AffOp) (v : ℚ × ℚ × ℚ) : List AffOp :=
  t ++ [.translate3 v]

/-- `AffineTransform.rotate(angle, axis)`: append a rotation to the
trace. -/
def affRotate (t : List AffOp) (angle : ℚ) (axis : ℚ × ℚ × ℚ) : List AffOp :=
  t ++ [.rotate angle axis]

/-- Modelled from the spec: the state of the `PerspectiveTransform`
projection object after `set_ortho` / `set_perspective`
("setOrthographic(l,r,b,t,near,far)", "setPerspective(fovY, aspect, near,
far)"); `initial` is the freshly constructed object. -/
inductive Proj where
  | initial
  | ortho (l r b t near far : ℚ)
  | persp (fov aspect near far : ℚ)
  deriving DecidableEq

/-- The viewbox a `PerspectiveCamera` is bound to: its pixel size. -/
structure TTViewbox where
  size : ℚ × ℚ
  deriving DecidableEq

/-- The assembled output transform
`viewbox_tr * proj_tr * cam_tr` (line 288): a similarity viewbox mapping,
the projection, and the camera's entity (pose) transform. -/
structure OutTr where
  viewboxTr : STT
  projTr : Proj
  camTr : List AffOp
  deriving DecidableEq

/-- State of a `TurntableCamera` (the concrete `PerspectiveCamera`
variant implementing the `_update_entity_transform` hook).

`fovAttr` models the Python attribute `fov`: no code in
`PerspectiveCamera`, `TurntableCamera` or (per the spec's data model,
which keeps the field of view in `perspectiveParams`) any base class ever
assigns it, so it is absent (`none`) on every constructed camera and
reading it raises `AttributeError`.

`mouseEnabled` models the spec's `Camera.mouseEnabled` flag; in the source
only `PanZoomCamera` defines `_mouse_enabled`, and `TurntableCamera`'s
handler never consults it. -/
structure TTState where
  mode : String
  orthoNear : ℚ
  orthoFar : ℚ
  orthoWidth : ℚ
  perspNear : ℚ
  perspFar : ℚ
  perspFov : ℚ
  fovAttr : Option ℚ
  elevation : ℚ
  azimuth : ℚ
  distance : ℚ
  center : ℚ × ℚ × ℚ
  transformOps : List AffOp
  proj : Proj
  outputTr : Option OutTr
  viewbox : Option TTViewbox
  mouseEnabled : Bool
  deriving DecidableEq

namespace TurntableCamera

/-- `TurntableCamera.__init__` composed with `PerspectiveCamera.__init__`
(default `mode='ortho'`; ortho near `-1e6`, far `1e6`, width `10`;
perspective near `1e-6`, far `1e6`, fov `60`; fresh `AffineTransform` as
camera transform; unbound). -/
def mk (elevation azimuth distance : ℚ) (center : ℚ × ℚ × ℚ) : TTState :=
  { mode := "ortho"
    orthoNear := -1000000
    orthoFar := 1000000
    orthoWidth := 10
    perspNear := 1 / 1000000
    perspFar := 1000000
    perspFov := 60
    fovAttr := none
    elevation := elevation
    azimuth := azimuth
    distance := distance
    center := center
    transformOps := []
    proj := .initial
    outputTr := none
    viewbox := none
    mouseEnabled := true }

/-- `TurntableCamera()` with the default arguments
`elevation=30, azimuth=30, distance=10, center=(0, 0, 0)`. -/
def default : TTState := mk 30 30 10 (0, 0, 0)

/-- `TurntableCamera._update_entity_transform` (lines 348-354):

    tr = self.transform
    tr.reset()
    tr.translate(0.0, 0.0, -self.distance)
    tr.rotate(self.azimuth, (0, 1, 0))
    tr.rotate(self.elevation, (-1, 0, 0))
    tr.translate(-np.array(self.center))
-/
def update_entity_transform (st : TTState) : TTState :=
  let tr := st.transformOps
  let tr := affReset tr
  let tr := affTranslate tr (0, 0, -st.distance)
  let tr := affRotate tr st.azimuth (0, 1, 0)
  let tr := affRotate tr st.elevation (-1, 0, 0)
  let tr := affTranslate tr (-st.center.1, -st.center.2.1, -st.center.2.2)
  { st with transformOps := tr }

end TurntableCamera

namespace PerspectiveCamera

/-- `PerspectiveCamera.set_ortho` (line 298): orthographic projection with
half-extents `width/2` and `height/2`, where
`height = width * (vbs[1] / vbs[0])`. -/
def set_ortho (st : TTState) (vb : TTViewbox) : TTState :=
  let width := st.orthoWidth
  let height := width * (vb.size.2 / vb.size.1)
  { st with proj := (.ortho (-width / 2) (width / 2) (-height / 2) (height / 2)
      st.orthoNear st.orthoFar) }

/-- `PerspectiveCamera.set_perspective` (line 290): perspective projection
with `fov = _perspective['fov']` and aspect ratio `vbs[1] / vbs[0]`. -/
def set_perspective (st : TTState) (vb : TTViewbox) : TTState :=
  let ar := vb.size.2 / vb.size.1
  { st with proj := .persp st.perspFov ar st.perspNear st.perspFar }

/-- The viewbox unit mapping of line 282-284:
`STTransform.from_mapping([[-1, 1], [1, -1]], [[0, 0], viewbox.size])`. -/
def viewboxMapping (size : ℚ × ℚ) : STT :=
  STT.fromPointMapping (-1, 1) (1, -1) (0, 0) size

/-- `PerspectiveCamera._update_transform` (lines 264-288) as instantiated
by `TurntableCamera` (the only variant in the source implementing the
`_update_entity_transform` hook). When unbound, the whole body is skipped.
When bound: rebuild the entity (pose) transform under the change-emitter
blocker, then select the projection by `mode` — raising
`ValueError("Unknown projection mode '%s'")` for any other mode, with the
pose already mutated, as in Python — and finally assemble and assign
`viewbox_tr * proj_tr * cam_tr`.

Returns the state as mutated up to the return or raise point, paired with
the raised error if any. -/
def update_transform (st : TTState) : TTState × Option PyError :=
  match st.viewbox with
  | none => (st, none)
  | some vb =>
      let st1 := TurntableCamera.update_entity_transform st
      if st1.mode = "ortho" then
        let st2 := set_ortho st1 vb
        ({ st2 with outputTr := (some ⟨viewboxMapping vb.size, st2.proj, st2.transformOps⟩) },
          none)
      else if st1.mode = "perspective" then
        let st2 := set_perspective st1 vb
        ({ st2 with outputTr := (some ⟨viewboxMapping vb.size, st2.proj, st2.transformOps⟩) },
          none)
      else
        (st1, some (.valueErrorUnknownMode st1.mode))

end PerspectiveCamera

namespace TurntableCamera

/-- `TurntableCamera.orbit` (lines 321-326): `azimuth += azim`;
`elevation = np.clip(elevation + elev, -90, 90)`; then
`_update_transform()` (whose possible raise propagates; the angle updates
persist regardless, as in Python). -/
def orbit (st : TTState) (azim elev : ℚ) : TTState × Option PyError :=
  let st := { st with
    azimuth := st.azimuth + azim
    elevation := min (max (st.elevation + elev) (-90)) 90 }
  PerspectiveCamera.update_transform st

/-- `TurntableCamera.mouse_event` (lines 328-346). Early-returns only when
`event.handled` is set. On wheel: `self.fov = self.fov * (1.1 ** -delta[1])`
— the read of the absent attribute `fov` raises `AttributeError`; were the
attribute present (set externally), it would be scaled by
`pow11 (-delta.2)` (standing for `1.1 ** -delta[1]`) and the transform
recomputed. On move with button 1: canvas delta `d = p2c - p1c`, then
`orbit(-d[0], d[1])`. The handler never sets `event.handled`.

Returns the state and event as mutated up to the return or raise point,
paired with the raised error if any. -/
def mouse_event (pow11 : ℚ → ℚ) (st : TTState) (ev : MouseEvent) :
    TTState × MouseEvent × Option PyError :=
  if ev.handled then (st, ev, none)
  else if ev.etype = .wheel then
    match st.fovAttr with
    | none => (st, ev, some (.attributeError "fov"))
    | some f =>
        let st := { st with fovAttr := some (f * pow11 (-ev.delta.2)) }
        let (st', e) := PerspectiveCamera.update_transform st
        (st', ev, e)
  else if ev.etype = .move ∧ 1 ∈ ev.buttons then
    let p1c := ev.map_to_canvas ev.lastPos
    let p2c := ev.map_to_canvas ev.pos
    let d := p2c - p1c
    let (st', e) := orbit st (-d.1) d.2
    (st', ev, e)
  else (st, ev, none)

end TurntableCamera

/-- The constructed camera returned by `make_camera`. -/
inductive CamMade where
  | camera (c : CameraS)
  | panzoom (w : PZWorld)
  | turntable (st : TTState)
  deriving DecidableEq

/-- The error raised by `make_camera` for an unknown name:
`KeyError('Unknown camera type "%s". Options are: %s')`, carrying the
requested name and the valid key set. -/
inductive FactoryError where
  | unknownCameraType (requested : String) (options : List String)
  deriving DecidableEq

/-- `make_camera` (lines 38-49): look the name up in
`{None: Camera, 'panzoom': PanZoomCamera, 'turntable': TurntableCamera}`
and construct (here with the constructors' default arguments); a missing
key raises the `KeyError` above. -/
def make_camera (cam_type : Option String) : Except FactoryError CamMade :=
  match cam_type with
  | none => .ok (.camera Camera.init)
  | some s =>
      if s = "panzoom" then .ok (.panzoom PanZoomCamera.init)
      else if s = "turntable" then .ok (.turntable TurntableCamera.default)
      else .error (.unknownCameraType s ["None", "panzoom", "turntable"])

/-! ### Helper lemmas -/

@[simp]
lemma PanZoomCamera.update_rect (w : PZWorld) :
    (PanZoomCamera.update w).rect = w.rect := by
  unfold PanZoomCamera.update
  cases w.viewbox <;> rfl

@[simp]
lemma PanZoomCamera.update_mouseEnabled (w : PZWorld) :
    (PanZoomCamera.update w).mouseEnabled = w.mouseEnabled := by
  unfold PanZoomCamera.update
  cases w.viewbox <;> rfl

@[simp]
lemma TurntableCamera.update_entity_transform_mode (st : TTState) :
    (TurntableCamera.update_entity_transform st).mode = st.mode := rfl

@[simp]
lemma TurntableCamera.update_entity_transform_elevation (st : TTState) :
    (TurntableCamera.update_entity_transform st).elevation = st.elevation := rfl

@[simp]
lemma TurntableCamera.update_entity_transform_azimuth (st : TTState) :
    (TurntableCamera.update_entity_transform st).azimuth = st.azimuth := rfl

/-- `PerspectiveCamera._update_transform` never touches the orbit angles. -/
lemma PerspectiveCamera.update_transform_preserves_angles (st : TTState) :
    (PerspectiveCamera.update_transform st).1.elevation = st.elevation ∧
    (PerspectiveCamera.update_transform st).1.azimuth = st.azimuth := by
  unfold PerspectiveCamera.update_transform
  cases st.viewbox with
  | none => exact ⟨rfl, rfl⟩
  | some vb =>
      by_cases h1 : st.mode = "ortho"
      · simp [h1, PerspectiveCamera.set_ortho]
      · by_cases h2 : st.mode = "perspective"
        · simp [h1, h2, PerspectiveCamera.set_perspective]
        · simp [h1, h2]

/-! ### Concrete inputs used by witnesses and counterexamples -/

/-- A concrete rational stand-in for the float map `d ↦ 1.03 ** d`. -/
def powLinear : ℚ → ℚ := fun d => 1 + (3 / 100) * d

/-- A second, different concrete stand-in (used to show the pan path never
evaluates the zoom response). -/
def powQuad : ℚ → ℚ := fun d => 1 + d * d

/-- A `PanZoomCamera` bound to a 400×300-pixel viewport with
`visibleRect = ((0,0),(1,1))`, after its first `update`. -/
def w400 : PZWorld :=
  PanZoomCamera.update ⟨⟨(0, 0), (1, 1)⟩, STT.default, true, some ⟨⟨(0, 0), (400, 300)⟩, none⟩⟩

/-- A primary-button move event of canvas delta `(40, 0)`. -/
def evPan40 : MouseEvent :=
  ⟨.move, (140, 50), (100, 50), (100, 50), [1], false, (0, 0), (1, 1), (0, 0)⟩

/-- A secondary-button move event (press at `(90, 40)`, previous `(100, 50)`,
current `(110, 60)`). -/
def evZoom : MouseEvent :=
  ⟨.move, (110, 60), (100, 50), (90, 40), [2], false, (0, 0), (1, 1), (0, 0)⟩

/-- A move event with both the primary and the secondary button held. -/
def evBoth : MouseEvent :=
  ⟨.move, (140, 50), (100, 50), (90, 40), [1, 2], false, (0, 0), (1, 1), (0, 0)⟩

/-- A primary-button drag of canvas delta `(10, 0)`, not yet handled. -/
def evDrag : MouseEvent :=
  ⟨.move, (110, 50), (100, 50), (100, 50), [1], false, (0, 0), (1, 1), (0, 0)⟩

/-- The same drag already marked handled. -/
def evHandled : MouseEvent := { evDrag with handled := true }

/-- An unhandled wheel event with vertical delta 1. -/
def evWheel : MouseEvent :=
  ⟨.wheel, (0, 0), (0, 0), (0, 0), [], false, (0, 1), (1, 1), (0, 0)⟩

/-- An unhandled wheel event with vertical delta -3. -/
def evWheelNeg : MouseEvent :=
  ⟨.wheel, (0, 0), (0, 0), (0, 0), [], false, (0, -3), (1, 1), (0, 0)⟩

/-- A fresh viewbox for the first bind. -/
def vbA : BaseViewbox := ⟨false, false, false, false, none⟩

/-- Another viewbox, offered to an already-bound camera. -/
def vbB : BaseViewbox := ⟨false, false, false, false, some (.tok 9)⟩

/-- A base camera already bound to `vbA` (the state after a successful
first bind). -/
def camBound : CameraS :=
  Camera.update (Camera.connect { Camera.init with viewbox := some vbA })

/-- A turntable camera with the spec's `mouseEnabled` flag cleared (the
source's `TurntableCamera` never defines nor reads it). -/
def ttDisabled : TTState := { TurntableCamera.default with mouseEnabled := false }

/-- A `PanZoomCamera` with `mouse_enabled = False`. -/
def pzDisabled : PZWorld := { PanZoomCamera.init with mouseEnabled := false }

/-- A bound turntable camera whose `mode` is neither `'ortho'` nor
`'perspective'`. -/
def badModeSt : TTState :=
  { TurntableCamera.default with mode := "weird", viewbox := some ⟨(400, 300)⟩ }

/-! ### Claims -/

/-- C1: binding a viewbox to a camera that is already bound does NOT
unsubscribe/resubscribe/recompute as specified: the setter calls the
misspelled `self.disconnec()` (the defined method is `disconnect`, line
92), so Python raises `AttributeError` before any state change. The first
bind (camera unbound) does subscribe to all four event streams and push
the transform onto the viewbox's content root. -/
theorem camera_rebind_raises_attributeError :
    Camera.setViewbox Camera.init vbA =
      .ok ⟨some ⟨true, true, true, true, some .nullTransform⟩, .nullTransform⟩ ∧
    Camera.setViewbox camBound vbB = .error (.attributeError "disconnec") :=
  ⟨rfl, rfl⟩

/-- C2: the turntable wheel handler does NOT scale the field of view and
DOES raise: `self.fov = self.fov * (1.1 ** -event.delta[1])` reads the
attribute `fov`, which no code ever defines (the field of view is stored
at `self._perspective['fov']`), so an unhandled wheel event on a fresh
`TurntableCamera` raises `AttributeError` with the stored fov (60) left
unchanged — for deltas of either sign. -/
theorem turntable_wheel_raises_attributeError :
    TurntableCamera.mouse_event powLinear TurntableCamera.default evWheel =
      (TurntableCamera.default, evWheel, some (.attributeError "fov")) ∧
    TurntableCamera.mouse_event powLinear TurntableCamera.default evWheelNeg =
      (TurntableCamera.default, evWheelNeg, some (.attributeError "fov")) ∧
    (TurntableCamera.mouse_event powLinear TurntableCamera.default evWheel).1.perspFov = 60 :=
  ⟨rfl, rfl, rfl⟩

/-- C3 (counterexample): the claim fails for `TurntableCamera` — with the
spec's `mouseEnabled` flag false and an unhandled primary-button move, the
turntable handler still mutates the camera (its handler never consults
`mouseEnabled`, an attribute only `PanZoomCamera` defines): azimuth moves
from 30 to 20. -/
theorem turntable_ignores_mouseEnabled :
    ttDisabled.mouseEnabled = false ∧ evDrag.handled = false ∧
    (TurntableCamera.mouse_event powLinear ttDisabled evDrag).1.azimuth = 20 ∧
    ttDisabled.azimuth = 30 ∧
    (TurntableCamera.mouse_event powLinear ttDisabled evDrag).1 ≠ ttDisabled := by
  have haz : (TurntableCamera.mouse_event powLinear ttDisabled evDrag).1.azimuth = 20 := by
    norm_num [TurntableCamera.mouse_event, TurntableCamera.orbit,
      PerspectiveCamera.update_transform, ttDisabled, evDrag, TurntableCamera.default,
      TurntableCamera.mk, MouseEvent.map_to_canvas, Prod.mk_sub_mk, min_def, max_def]
    decide
  refine ⟨rfl, rfl, haz, rfl, fun h => ?_⟩
  rw [h] at haz
  norm_num [ttDisabled, TurntableCamera.default, TurntableCamera.mk] at haz

/-- C3 (amended): if `event.handled` is already true, both variants'
handlers return immediately with the whole camera state and the event
unchanged (and raise nothing); `PanZoomCamera` — but only `PanZoomCamera`
— additionally returns immediately when `mouse_enabled` is false. -/
theorem mouse_event_early_return :
    (∀ (g : ℚ → ℚ) (w : PZWorld) (ev : MouseEvent), ev.handled = true →
      PanZoomCamera.mouse_event g w ev = (w, ev)) ∧
    (∀ (g : ℚ → ℚ) (w : PZWorld) (ev : MouseEvent), w.mouseEnabled = false →
      PanZoomCamera.mouse_event g w ev = (w, ev)) ∧
    (∀ (g : ℚ → ℚ) (st : TTState) (ev : MouseEvent), ev.handled = true →
      TurntableCamera.mouse_event g st ev = (st, ev, none)) := by
  refine ⟨?_, ?_, ?_⟩
  · intro g w ev h
    unfold PanZoomCamera.mouse_event
    simp [h]
  · intro g w ev h
    unfold PanZoomCamera.mouse_event
    simp [h]
  · intro g st ev h
    unfold TurntableCamera.mouse_event
    simp [h]

/-- C3 (witness for the amended claim). -/
theorem mouse_event_early_return_witness :
    PanZoomCamera.mouse_event powLinear PanZoomCamera.init evHandled =
      (PanZoomCamera.init, evHandled) ∧
    PanZoomCamera.mouse_event powLinear pzDisabled evDrag = (pzDisabled, evDrag) ∧
    TurntableCamera.mouse_event powLinear TurntableCamera.default evHandled =
      (TurntableCamera.default, evHandled, none) :=
  ⟨mouse_event_early_return.1 powLinear PanZoomCamera.init evHandled rfl,
   mouse_event_early_return.2.1 powLinear pzDisabled evDrag rfl,
   mouse_event_early_return.2.2 powLinear TurntableCamera.default evHandled rfl⟩

/-- C4: after any `orbit(Δazimuth, Δelevation)` call the elevation lies in
`[-90, 90]` and equals `clamp(elevation + Δelevation, -90, 90)`, while the
azimuth is incremented without clamping or normalization; concretely,
`orbit(0, 100)` from the default elevation 30 yields elevation 90. -/
theorem turntable_orbit_clamps_elevation :
    (∀ (st : TTState) (azim elev : ℚ),
      -90 ≤ (TurntableCamera.orbit st azim elev).1.elevation ∧
      (TurntableCamera.orbit st azim elev).1.elevation ≤ 90 ∧
      (TurntableCamera.orbit st azim elev).1.elevation =
        min (max (st.elevation + elev) (-90)) 90 ∧
      (TurntableCamera.orbit st azim elev).1.azimuth = st.azimuth + azim) ∧
    (TurntableCamera.orbit TurntableCamera.default 0 100).1.elevation = 90 := by
  constructor
  · intro st azim elev
    unfold TurntableCamera.orbit
    have h := PerspectiveCamera.update_transform_preserves_angles
      { st with azimuth := st.azimuth + azim,
                elevation := min (max (st.elevation + elev) (-90)) 90 }
    refine ⟨?_, ?_, h.1, h.2⟩
    · rw [h.1]
      exact le_min (le_max_right _ _) (by norm_num)
    · rw [h.1]
      exact min_le_right _ _
  · unfold TurntableCamera.orbit
    rw [(PerspectiveCamera.update_transform_preserves_angles _).1]
    norm_num [TurntableCamera.default, TurntableCamera.mk, min_def, max_def]

/-- C5: on a move with the primary button held (unhandled, mouse enabled),
the new visible rect is the old rect translated by
`previousScene − currentScene`, the inverse-mapped pointer positions
through the current transform, and the event is marked handled. -/
theorem panzoom_pan_translates_rect (g : ℚ → ℚ) (w : PZWorld) (ev : MouseEvent)
    (h1 : ev.handled = false) (h2 : w.mouseEnabled = true) (h3 : 1 ∈ ev.buttons) :
    (PanZoomCamera.mouse_event g w ev).1.rect =
      w.rect.translateBy (w.transform.imap ev.lastPos - w.transform.imap ev.pos) ∧
    (PanZoomCamera.mouse_event g w ev).2 = { ev with handled := true } := by
  unfold PanZoomCamera.mouse_event
  simp [h1, h2, h3, PanZoomCamera.setRect]

/-- C5 (witness): the spec's end-to-end scenario — 400×300 viewport,
`visibleRect = ((0,0),(1,1))`, primary-button drag of canvas delta
`(40, 0)` — lands the new rect origin at x = −1/10. -/
theorem panzoom_pan_translates_rect_witness :
    evPan40.handled = false ∧ w400.mouseEnabled = true ∧ 1 ∈ evPan40.buttons ∧
    (PanZoomCamera.mouse_event powLinear w400 evPan40).1.rect =
      w400.rect.translateBy
        (w400.transform.imap evPan40.lastPos - w400.transform.imap evPan40.pos) ∧
    (PanZoomCamera.mouse_event powLinear w400 evPan40).1.rect.pos.1 = -(1 / 10) :=
  ⟨rfl, rfl, by decide,
   (panzoom_pan_translates_rect powLinear w400 evPan40 rfl rfl (by decide)).1,
   by
    norm_num [PanZoomCamera.mouse_event, PanZoomCamera.setRect, PanZoomCamera.update,
      w400, evPan40, STT.fromRectMapping, Rect.flippedY, STT.imap, STT.default,
      Rect.translateBy, Prod.mk_sub_mk]⟩

/-- C6: on a move with the secondary button held (unhandled, mouse
enabled, primary not held), the handler rescales the rect exactly as §4.2
words it: per-axis factor `1.03 ^ (Δ · (1, −1))` for the canvas delta
`Δ = previous − current`, zoom center the inverse-mapped press position,
new rect the old rect through
`translate(center) · scale(s) · translate(−center)` — for every
exponential response function. -/
theorem panzoom_zoom_matches_spec (g : ℚ → ℚ) (w : PZWorld) (ev : MouseEvent)
    (h1 : ev.handled = false) (h2 : w.mouseEnabled = true)
    (h3 : 1 ∉ ev.buttons) (h4 : 2 ∈ ev.buttons) :
    (PanZoomCamera.mouse_event g w ev).1.rect = specZoomRect g w ev ∧
    (PanZoomCamera.mouse_event g w ev).2 = { ev with handled := true } := by
  unfold PanZoomCamera.mouse_event specZoomRect
  simp [h1, h2, h3, h4, PanZoomCamera.setRect, Prod.fst_sub, Prod.snd_sub]

/-- C6 (witness). -/
theorem panzoom_zoom_matches_spec_witness :
    evZoom.handled = false ∧ w400.mouseEnabled = true ∧
    1 ∉ evZoom.buttons ∧ 2 ∈ evZoom.buttons ∧
    (PanZoomCamera.mouse_event powLinear w400 evZoom).1.rect =
      specZoomRect powLinear w400 evZoom :=
  ⟨rfl, rfl, by decide, by decide,
   (panzoom_zoom_matches_spec powLinear w400 evZoom rfl rfl (by decide) (by decide)).1⟩

/-- C7: the turntable pose recomputation rebuilds the transform from
scratch — whatever operation trace the transform held before, after
`_update_entity_transform` it is exactly reset-to-identity followed by
translate `(0, 0, -distance)`, rotate azimuth about `(0, 1, 0)`, rotate
elevation about `(-1, 0, 0)`, translate `-center`, in that order. -/
theorem turntable_pose_rebuilt_from_scratch :
    ∀ st : TTState,
      (TurntableCamera.update_entity_transform st).transformOps =
        [AffOp.translate3 (0, 0, -st.distance),
         AffOp.rotate st.azimuth (0, 1, 0),
         AffOp.rotate st.elevation (-1, 0, 0),
         AffOp.translate3 (-st.center.1, -st.center.2.1, -st.center.2.2)] :=
  fun _ => rfl

/-- C8: on an unbound camera, `Camera.update`, `PanZoomCamera.update` and
`PerspectiveCamera._update_transform` are complete no-ops: the state comes
back unchanged, nothing is written to any viewport, and no error is
raised. -/
theorem unbound_update_is_noop :
    (∀ c : CameraS, c.viewbox = none → Camera.update c = c) ∧
    (∀ w : PZWorld, w.viewbox = none → PanZoomCamera.update w = w) ∧
    (∀ st : TTState, st.viewbox = none →
      PerspectiveCamera.update_transform st = (st, none)) := by
  refine ⟨?_, ?_, ?_⟩
  · intro c h
    unfold Camera.update
    rw [h]
  · intro w h
    unfold PanZoomCamera.update
    rw [h]
  · intro st h
    unfold PerspectiveCamera.update_transform
    rw [h]

/-- C8 (witness): the three freshly constructed (hence unbound) cameras. -/
theorem unbound_update_is_noop_witness :
    Camera.update Camera.init = Camera.init ∧
    PanZoomCamera.update PanZoomCamera.init = PanZoomCamera.init ∧
    PerspectiveCamera.update_transform TurntableCamera.default =
      (TurntableCamera.default, none) :=
  ⟨unbound_update_is_noop.1 Camera.init rfl,
   unbound_update_is_noop.2.1 PanZoomCamera.init rfl,
   unbound_update_is_noop.2.2 TurntableCamera.default rfl⟩

/-- C9: configuration errors are raised at the point of use, never
defaulted: `make_camera` rejects every name outside
`{None, "panzoom", "turntable"}` with an error carrying the requested name
and the valid set, returns the corresponding camera for each valid name;
and a bound camera's transform recompute raises
`ValueError("Unknown projection mode ...")` whenever `mode` is neither
`'ortho'` nor `'perspective'`. -/
theorem factory_and_mode_errors :
    (∀ s : String, s ≠ "panzoom" → s ≠ "turntable" →
      make_camera (some s) =
        .error (.unknownCameraType s ["None", "panzoom", "turntable"])) ∧
    make_camera none = .ok (.camera Camera.init) ∧
    make_camera (some "panzoom") = .ok (.panzoom PanZoomCamera.init) ∧
    make_camera (some "turntable") = .ok (.turntable TurntableCamera.default) ∧
    (∀ st : TTState, st.viewbox.isSome = true →
      st.mode ≠ "ortho" → st.mode ≠ "perspective" →
      (PerspectiveCamera.update_transform st).2 =
        some (.valueErrorUnknownMode st.mode)) := by
  refine ⟨?_, rfl, rfl, rfl, ?_⟩
  · intro s h1 h2
    unfold make_camera
    simp [h1, h2]
  · intro st hs h1 h2
    cases hvb : st.viewbox with
    | none => rw [hvb] at hs; exact absurd hs (by simp)
    | some vb =>
        unfold PerspectiveCamera.update_transform
        rw [hvb]
        simp [h1, h2]

/-- C9 (witness): the unknown name `"arcball"` and a bound camera with
mode `"weird"`. -/
theorem factory_and_mode_errors_witness :
    make_camera (some "arcball") =
      .error (.unknownCameraType "arcball" ["None", "panzoom", "turntable"]) ∧
    (PerspectiveCamera.update_transform badModeSt).2 =
      some (.valueErrorUnknownMode "weird") :=
  ⟨factory_and_mode_errors.1 "arcball" (by decide) (by decide),
   factory_and_mode_errors.2.2.2.2 badModeSt rfl (by decide) (by decide)⟩

/-- C10: with both the primary and the secondary button held (unhandled,
mouse enabled), only the pan branch runs: the rect is translated by the
scene-space pointer delta, and the result does not depend on the zoom
response function at all (the zoom branch is never evaluated). -/
theorem panzoom_both_buttons_pan_only (g g' : ℚ → ℚ) (w : PZWorld) (ev : MouseEvent)
    (h1 : ev.handled = false) (h2 : w.mouseEnabled = true)
    (h3 : 1 ∈ ev.buttons) (_h4 : 2 ∈ ev.buttons) :
    (PanZoomCamera.mouse_event g w ev).1.rect =
      w.rect.translateBy (w.transform.imap ev.lastPos - w.transform.imap ev.pos) ∧
    PanZoomCamera.mouse_event g w ev = PanZoomCamera.mouse_event g' w ev := by
  unfold PanZoomCamera.mouse_event
  simp [h1, h2, h3, PanZoomCamera.setRect]

/-- C10 (witness): both-buttons drag on the 400×300 world, under two
different zoom response functions. -/
theorem panzoom_both_buttons_pan_only_witness :
    evBoth.handled = false ∧ w400.mouseEnabled = true ∧
    1 ∈ evBoth.buttons ∧ 2 ∈ evBoth.buttons ∧
    (PanZoomCamera.mouse_event powLinear w400 evBoth).1.rect =
      w400.rect.translateBy
        (w400.transform.imap evBoth.lastPos - w400.transform.imap evBoth.pos) ∧
    PanZoomCamera.mouse_event powLinear w400 evBoth =
      PanZoomCamera.mouse_event powQuad w400 evBoth :=
  ⟨rfl, rfl, by decide, by decide,
   (panzoom_both_buttons_pan_only powLinear powQuad w400 evBoth rfl rfl (by decide)
     (by decide)).1,
   (panzoom_both_buttons_pan_only powLinear powQuad w400 evBoth rfl rfl (by decide)
     (by decide)).2⟩

end VispyCameras
